import Mathlib

/-!
Verification of the openclaw-pi-assistant session pipeline, transport relay
and adapter shims.  Each definition is a shallow embedding of the JavaScript
function it is named after; external effects (child processes, sockets, the
model stream) are passed in as explicit outcome values, and the sequence of
`sendMessage` calls a handler performs is returned as a list.
-/

namespace OpenClawPi

/-- JavaScript whitespace-class membership for the characters this code can
meet (space, tab, newline, carriage return, vertical tab, form feed); used
both by the regex `\s` class and by `String.prototype.trim`. -/
def wsChar (c : Char) : Bool :=
  c == ' ' || c == '\t' || c == '\n' || c == '\r' ||
    c == Char.ofNat 11 || c == Char.ofNat 12

/-- Leading and trailing whitespace removed from a character list. -/
def trimChars (cs : List Char) : List Char :=
  ((cs.dropWhile wsChar).reverse.dropWhile wsChar).reverse

/-- JavaScript `String.prototype.trim`, at the character level. -/
def jsTrim (s : String) : String :=
  String.mk (trimChars s.toList)

/-- A server-to-client frame: `sendMessage(ws, type, data)` serializes an
object carrying the `type` tag and the fields of `data`.  We keep the tag and
the data fields as an association list. -/
structure Msg where
  type : String
  data : List (String × String)
deriving DecidableEq

/-- WebSocket readyState constant CONNECTING (value 0 in the ws library). -/
def CONNECTING : Nat := 0

/-- WebSocket readyState constant OPEN (value 1 in the ws library). -/
def OPEN : Nat := 1

/-- WebSocket readyState constant CLOSING (value 2 in the ws library). -/
def CLOSING : Nat := 2

/-- WebSocket readyState constant CLOSED (value 3 in the ws library). -/
def CLOSED : Nat := 3

/-- src/server/index.js lines 44-48: `sendMessage` serializes and sends the
frame only when the connection's readyState is OPEN; otherwise it does
nothing (returns no frame) and in particular cannot throw. -/
def sendMessage (readyState : Nat) (type : String) (data : List (String × String)) :
    Option Msg :=
  if readyState = OPEN then some ⟨type, data⟩ else none

/-- Role of one history entry (src/server/index.js stores the literal strings
"user" and "assistant"). -/
inductive Role
  | user
  | assistant
deriving DecidableEq

/-- One conversation history entry `{ role, content }`. -/
structure Turn where
  role : Role
  content : String
deriving DecidableEq

/-- src/server/index.js line 27: `const MAX_HISTORY = 10`. -/
def MAX_HISTORY : Nat := 10

/-- src/server/index.js lines 36-42: push the new turn, then
`history.splice(0, history.length - MAX_HISTORY)` when the bound is exceeded
(splice from index 0 removes the oldest entries). -/
def addToHistory (history : List Turn) (role : Role) (content : String) : List Turn :=
  let h := history ++ [⟨role, content⟩]
  if h.length > MAX_HISTORY then h.drop (h.length - MAX_HISTORY) else h

/-- A whole sequence of turns appended through `addToHistory`, in order,
starting from the history `h`. -/
def pushTurns (h : List Turn) (ts : List Turn) : List Turn :=
  ts.foldl (fun acc t => addToHistory acc t.role t.content) h

/-- Twelve concrete turns, a test vector for the history bound. -/
def turns12 : List Turn :=
  [⟨.user, "t1"⟩, ⟨.assistant, "t2"⟩, ⟨.user, "t3"⟩, ⟨.assistant, "t4"⟩,
   ⟨.user, "t5"⟩, ⟨.assistant, "t6"⟩, ⟨.user, "t7"⟩, ⟨.assistant, "t8"⟩,
   ⟨.user, "t9"⟩, ⟨.assistant, "t10"⟩, ⟨.user, "t11"⟩, ⟨.assistant, "t12"⟩]

/-- Per-connection mutable state held by the `wss.on('connection')` closure
(src/server/index.js lines 54-55 and the per-client history map):
`isRecording`, whether `recordingProcess` is non-null, and the history. -/
structure ConnState where
  isRecording : Bool
  recordingProcess : Bool
  history : List Turn
deriving DecidableEq

/-- Outcome of a fallible synchronous or awaited JavaScript call: it either
returns a value or throws an Error with a message. -/
inductive JsCall (α : Type)
  | ok (val : α)
  | thrown (msg : String)
deriving DecidableEq

/-- Outcome of one `chat(...)` call as observed by the caller: the text
fragments passed to `onChunk` in arrival order, and `some e` when the call
rejects (after having delivered those fragments). -/
structure ChatRun where
  chunks : List String
  failure : Option String
deriving DecidableEq

/-- Environment of one run of the `stop_recording` case: the outcome of each
awaited adapter call, in program order. -/
structure StopEnv where
  stopRecordingResult : JsCall String
  transcribeResult : JsCall String
  chatRun : ChatRun
  synthesizeResult : JsCall String
  playResult : JsCall Unit
deriving DecidableEq

/-- Result of one message-handler run: the `sendMessage` calls it performed in
order, the connection state it left behind, and whether `chat` was invoked. -/
structure StepOut where
  msgs : List Msg
  state : ConnState
  chatInvoked : Bool
deriving DecidableEq

/-- `fullResponse` accumulation: index.js starts from `''` and appends each
chunk (`fullResponse += chunk`), i.e. a left fold of string append. -/
def concatStr (l : List String) : String :=
  l.foldl (fun a b => a ++ b) ""

/-- src/server/index.js line 135: the catch block sends
`err.message || 'Processing failed'` (an empty message string is falsy). -/
def errMessage (m : String) : String :=
  if m = "" then "Processing failed" else m

/-- The two frames sent by the pipeline catch block (lines 135-136):
one error frame, then `state: idle`. -/
def catchMsgs (e : String) : List Msg :=
  [⟨"error", [("message", errMessage e)]⟩, ⟨"state", [("state", "idle")]⟩]

/-- src/server/index.js lines 69-83, the `start_recording` case: rejected with
an error frame when `isRecording` is already set; otherwise `startRecording()`
is called, and on success the flag and process handle are set and
`recording_started` is sent, while on a throw only an error frame is sent
(note: no `state` frame on this failure path). -/
def handleStartRecording (outcome : JsCall Unit) (st : ConnState) :
    List Msg × ConnState :=
  if st.isRecording then
    ([⟨"error", [("message", "Already recording")]⟩], st)
  else
    match outcome with
    | .ok _ =>
        ([⟨"recording_started", []⟩],
          { st with isRecording := true, recordingProcess := true })
    | .thrown _ =>
        ([⟨"error", [("message", "Failed to start recording")]⟩], st)

/-- src/server/index.js lines 85-140, the `stop_recording` case, translated
statement by statement.  Rejected when not recording; otherwise the pipeline
runs capture-stop, transcription, the streamed model call, synthesis and
playback in order, emitting the frames of lines 91-132, and any throw lands in
the catch block (error frame, `state: idle`, flags cleared). -/
def handleStopRecording (env : StopEnv) (st : ConnState) : StepOut :=
  if !st.isRecording then
    ⟨[⟨"error", [("message", "Not recording")]⟩], st, false⟩
  else
    let pre : List Msg :=
      [⟨"recording_stopped", []⟩, ⟨"state", [("state", "thinking")]⟩]
    match env.stopRecordingResult with
    | .thrown e => ⟨pre ++ catchMsgs e, ⟨false, false, st.history⟩, false⟩
    | .ok _wavPath =>
      let st1 : ConnState := ⟨false, false, st.history⟩
      let pre2 := pre ++ [⟨"state", [("state", "transcribing")]⟩]
      match env.transcribeResult with
      | .thrown e => ⟨pre2 ++ catchMsgs e, st1, false⟩
      | .ok transcript =>
        if jsTrim transcript = "" then
          ⟨pre2 ++ [⟨"error", [("message", "Could not understand audio")]⟩,
              ⟨"state", [("state", "idle")]⟩], st1, false⟩
        else
          let hist1 := addToHistory st.history .user transcript
          let pre3 := pre2 ++ [⟨"transcript", [("text", transcript)]⟩,
              ⟨"state", [("state", "thinking")]⟩]
          let chunkMsgs : List Msg :=
            env.chatRun.chunks.map (fun c => ⟨"response_chunk", [("text", c)]⟩)
          let fullResponse := concatStr env.chatRun.chunks
          match env.chatRun.failure with
          | some e => ⟨pre3 ++ chunkMsgs ++ catchMsgs e, ⟨false, false, hist1⟩, true⟩
          | none =>
            let hist2 := addToHistory hist1 .assistant fullResponse
            let pre4 := pre3 ++ chunkMsgs ++
              [⟨"response_complete", [("text", fullResponse)]⟩,
               ⟨"state", [("state", "speaking")]⟩]
            match env.synthesizeResult with
            | .thrown e => ⟨pre4 ++ catchMsgs e, ⟨false, false, hist2⟩, true⟩
            | .ok _audioPath =>
              match env.playResult with
              | .thrown e => ⟨pre4 ++ catchMsgs e, ⟨false, false, hist2⟩, true⟩
              | .ok _ =>
                ⟨pre4 ++ [⟨"state", [("state", "idle")]⟩], ⟨false, false, hist2⟩, true⟩

/-- src/server/index.js lines 142-146, the `clear_history` case. -/
def handleClearHistory (st : ConnState) : List Msg × ConnState :=
  ([⟨"history_cleared", []⟩], { st with history := [] })

/-- The announced session phases of the pipeline (spec section 4.5). -/
inductive SessionPhase
  | idle
  | recording
  | transcribing
  | thinking
  | speaking
deriving DecidableEq

/-- Value of the closure's `isRecording` flag in each announced phase, traced
from src/server/index.js: the flag is set at line 76 and cleared at line 96,
before the `transcribing`, (second) `thinking` and `speaking` state frames are
sent, so it is true only in the recording phase. -/
def isRecordingFlagAt : SessionPhase → Bool
  | .recording => true
  | _ => false

/-- One newline-delimited line of the Ollama response stream, as seen by
src/server/openclaw.js lines 104-122 after `JSON.parse(line)`: the optional
`message.content` field and the `done` flag.  Empty-string content is falsy in
the `if (data.message?.content)` test and is skipped like an absent field. -/
structure OllamaLine where
  content : Option String
  done : Bool
deriving DecidableEq

/-- A raw stream line: either parsed JSON or a line on which `JSON.parse`
throws (caught and skipped; blank lines are likewise skipped). -/
inductive RawLine
  | parsed (l : OllamaLine)
  | unparsable
deriving DecidableEq

/-- One iteration of the line loop of `handleStreamingResponse`
(src/server/openclaw.js lines 101-122): on a parsed line with truthy content
the fragment is passed to `onChunk` and appended to `fullResponse`. The
accumulator is (onChunk calls so far, fullResponse so far). -/
def streamStep (acc : List String × String) (l : RawLine) : List String × String :=
  match l with
  | .unparsable => acc
  | .parsed d =>
      match d.content with
      | none => acc
      | some c => if c = "" then acc else (acc.1 ++ [c], acc.2 ++ c)

/-- src/server/openclaw.js lines 84-142, `handleStreamingResponse`, at the
granularity of complete newline-delimited lines (the buffer-splitting loop
plus the final-buffer flush of lines 125-136 present the lines in arrival
order).  Returns the `onChunk` calls it performed and the `fullResponse` value
it resolves with. -/
def handleStreamingResponse (lines : List RawLine) : List String × String :=
  lines.foldl streamStep ([], "")

/-- A frame list with no error frame in it. -/
def noErrorFrames (msgs : List Msg) : Bool :=
  msgs.all (fun m => m.type != "error")

/-- Whether the environment makes some awaited adapter call of the
`stop_recording` pipeline fail, at the first failure point control actually
reaches (an empty transcript returns early, so later outcomes are then
unreachable). -/
def adapterFailure (env : StopEnv) : Bool :=
  match env.stopRecordingResult with
  | .thrown _ => true
  | .ok _ =>
    match env.transcribeResult with
    | .thrown _ => true
    | .ok t =>
      if jsTrim t = "" then false
      else
        match env.chatRun.failure with
        | some _ => true
        | none =>
          match env.synthesizeResult with
          | .thrown _ => true
          | .ok _ =>
            match env.playResult with
            | .thrown _ => true
            | .ok _ => false

namespace Tts

/-- The backtick character, U+0060. -/
def btick : Char := Char.ofNat 96

/-- Index of the first occurrence of character `c` in `l`, if any. -/
def indexOfChar (c : Char) : List Char → Option Nat
  | [] => none
  | x :: rest => if x == c then some 0 else (indexOfChar c rest).map (· + 1)

/-- Index of the first occurrence of the substring `pat` in `l`, if any. -/
def indexOfSub (pat : List Char) : List Char → Option Nat
  | [] => if List.isPrefixOf pat ([] : List Char) then some 0 else none
  | x :: rest =>
      if List.isPrefixOf pat (x :: rest) then some 0
      else (indexOfSub pat rest).map (· + 1)

/-- Length of the longest prefix of `l` whose characters satisfy `p`. -/
def countWhile (p : Char → Bool) : List Char → Nat
  | [] => 0
  | c :: rest => if p c then countWhile p rest + 1 else 0

/-- A triple-backtick fence. -/
def fence : List Char := [btick, btick, btick]

/-- tts.js line 122: fenced code blocks (three backticks, lazily matched
content, three backticks) are replaced by the literal text " code block ".
A fence with no later closing fence matches nowhere and passes through. -/
def codeBlockRepl : Nat → List Char → List Char
  | 0, cs => cs
  | _ + 1, [] => []
  | n + 1, c :: rest =>
      if fence.isPrefixOf (c :: rest) then
        match indexOfSub fence ((c :: rest).drop 3) with
        | some j => " code block ".toList ++ codeBlockRepl n ((c :: rest).drop (3 + j + 3))
        | none => c :: codeBlockRepl n rest
      else c :: codeBlockRepl n rest

/-- tts.js line 123: inline code (backtick, one or more non-backtick
characters, backtick) is replaced by " code ". -/
def inlineCodeRepl : Nat → List Char → List Char
  | 0, cs => cs
  | _ + 1, [] => []
  | n + 1, c :: rest =>
      if c == btick then
        match indexOfChar btick rest with
        | some j =>
            if 1 ≤ j then " code ".toList ++ inlineCodeRepl n (rest.drop (j + 1))
            else c :: inlineCodeRepl n rest
        | none => c :: inlineCodeRepl n rest
      else c :: inlineCodeRepl n rest

/-- tts.js lines 124 and 126: a doubled delimiter pair (two `d`, one or more
non-`d` characters, two `d`) is replaced by its inner content. -/
def pairRepl2 (d : Char) : Nat → List Char → List Char
  | 0, cs => cs
  | _ + 1, [] => []
  | n + 1, c :: rest =>
      if c == d && rest.head? == some d then
        let after := (c :: rest).drop 2
        match indexOfChar d after with
        | some j =>
            if 1 ≤ j && (after.drop (j + 1)).head? == some d then
              after.take j ++ pairRepl2 d n (after.drop (j + 2))
            else c :: pairRepl2 d n rest
        | none => c :: pairRepl2 d n rest
      else c :: pairRepl2 d n rest

/-- tts.js lines 125 and 127: a single delimiter pair (`d`, one or more
non-`d` characters, `d`) is replaced by its inner content. -/
def pairRepl1 (d : Char) : Nat → List Char → List Char
  | 0, cs => cs
  | _ + 1, [] => []
  | n + 1, c :: rest =>
      if c == d then
        match indexOfChar d rest with
        | some j =>
            if 1 ≤ j then rest.take j ++ pairRepl1 d n (rest.drop (j + 1))
            else c :: pairRepl1 d n rest
        | none => c :: pairRepl1 d n rest
      else c :: pairRepl1 d n rest

/-- tts.js line 128: one to six `#` characters followed by optional whitespace
are removed (the regex is unanchored, so this applies anywhere). -/
def headerRepl : Nat → List Char → List Char
  | 0, cs => cs
  | _ + 1, [] => []
  | n + 1, c :: rest =>
      if c == '#' then
        let run := countWhile (· == '#') (c :: rest)
        let k := min run 6
        let afterHash := (c :: rest).drop k
        let w := countWhile wsChar afterHash
        headerRepl n (afterHash.drop w)
      else c :: headerRepl n rest

/-- tts.js line 129: a markdown link `[text](url)` (text without `]`, url
without `)`, both non-empty) is replaced by its link text. -/
def linkRepl : Nat → List Char → List Char
  | 0, cs => cs
  | _ + 1, [] => []
  | n + 1, c :: rest =>
      if c == '[' then
        match indexOfChar ']' rest with
        | some j =>
            if 1 ≤ j then
              match rest.drop (j + 1) with
              | '(' :: urlRest =>
                  match indexOfChar ')' urlRest with
                  | some m =>
                      if 1 ≤ m then rest.take j ++ linkRepl n (urlRest.drop (m + 1))
                      else c :: linkRepl n rest
                  | none => c :: linkRepl n rest
              | _ => c :: linkRepl n rest
            else c :: linkRepl n rest
        | none => c :: linkRepl n rest
      else c :: linkRepl n rest

/-- The characters of "https://". -/
def httpsPre : List Char := "https://".toList

/-- The characters of "http://". -/
def httpPre : List Char := "http://".toList

/-- tts.js line 130: an `http://` or `https://` URL (scheme plus one or more
non-whitespace characters) is replaced by " link ". -/
def urlRepl : Nat → List Char → List Char
  | 0, cs => cs
  | _ + 1, [] => []
  | n + 1, c :: rest =>
      if httpsPre.isPrefixOf (c :: rest) then
        let after := (c :: rest).drop 8
        let k := countWhile (fun x => !(wsChar x)) after
        if 1 ≤ k then " link ".toList ++ urlRepl n (after.drop k)
        else c :: urlRepl n rest
      else if httpPre.isPrefixOf (c :: rest) then
        let after := (c :: rest).drop 7
        let k := countWhile (fun x => !(wsChar x)) after
        if 1 ≤ k then " link ".toList ++ urlRepl n (after.drop k)
        else c :: urlRepl n rest
      else c :: urlRepl n rest

/-- tts.js line 131: the characters removed by the angle/brace/bracket
character class. -/
def bracketChars : List Char := ['<', '>', Char.ofNat 123, Char.ofNat 125, '[', ']']

/-- tts.js line 131: drop every angle bracket, brace and square bracket. -/
def stripBrackets (cs : List Char) : List Char :=
  cs.filter (fun c => !(bracketChars.contains c))

/-- tts.js line 132: a run of two or more newlines becomes ". ". -/
def newlinesRepl : Nat → List Char → List Char
  | 0, cs => cs
  | _ + 1, [] => []
  | n + 1, c :: rest =>
      if c == '\n' then
        let k := countWhile (· == '\n') (c :: rest)
        if 2 ≤ k then '.' :: ' ' :: newlinesRepl n ((c :: rest).drop k)
        else c :: newlinesRepl n rest
      else c :: newlinesRepl n rest

/-- tts.js line 134: a run of whitespace becomes a single space. -/
def wsCollapse : Nat → List Char → List Char
  | 0, cs => cs
  | _ + 1, [] => []
  | n + 1, c :: rest =>
      if wsChar c then
        let k := countWhile wsChar (c :: rest)
        ' ' :: wsCollapse n ((c :: rest).drop k)
      else c :: wsCollapse n rest

/-- tts.js line 135: a run of two or more dots becomes a single dot. -/
def dotsRepl : Nat → List Char → List Char
  | 0, cs => cs
  | _ + 1, [] => []
  | n + 1, c :: rest =>
      if c == '.' then
        let k := countWhile (· == '.') (c :: rest)
        if 2 ≤ k then '.' :: dotsRepl n ((c :: rest).drop k)
        else c :: dotsRepl n rest
      else c :: dotsRepl n rest

/-- tts.js line 136: the punctuation class of the whitespace-before-punctuation
cleanup. -/
def punctChars : List Char := ['.', ',', '!', '?']

/-- tts.js line 136: whitespace directly before `.", ",!", "?"` is removed
(the run of whitespace plus the punctuation character is replaced by the
punctuation character alone). -/
def wsPunctRepl : Nat → List Char → List Char
  | 0, cs => cs
  | _ + 1, [] => []
  | n + 1, c :: rest =>
      if wsChar c then
        let k := countWhile wsChar (c :: rest)
        match ((c :: rest).drop k).head? with
        | some p =>
            if punctChars.contains p then p :: wsPunctRepl n ((c :: rest).drop (k + 1))
            else c :: wsPunctRepl n rest
        | none => c :: wsPunctRepl n rest
      else c :: wsPunctRepl n rest

/-- src/server/tts.js lines 120-139, `cleanTextForTTS`: the chain of
replacements applied in program order, then `.trim()` and `.slice(0, 2000)`.
Each fuel argument is the current length plus one, enough for scanners that
consume at least one character per step. -/
def cleanTextForTTS (text : String) : String :=
  let s0 := text.toList
  let s1 := codeBlockRepl (s0.length + 1) s0
  let s2 := inlineCodeRepl (s1.length + 1) s1
  let s3 := pairRepl2 '*' (s2.length + 1) s2
  let s4 := pairRepl1 '*' (s3.length + 1) s3
  let s5 := pairRepl2 '_' (s4.length + 1) s4
  let s6 := pairRepl1 '_' (s5.length + 1) s5
  let s7 := headerRepl (s6.length + 1) s6
  let s8 := linkRepl (s7.length + 1) s7
  let s9 := urlRepl (s8.length + 1) s8
  let s10 := stripBrackets s9
  let s11 := newlinesRepl (s10.length + 1) s10
  let s12 := s11.map (fun c => if c == '\n' then ' ' else c)
  let s13 := wsCollapse (s12.length + 1) s12
  let s14 := dotsRepl (s13.length + 1) s13
  let s15 := wsPunctRepl (s14.length + 1) s14
  String.mk ((trimChars s15).take 2000)

/-- Outcome of a spawned child process as its caller observes it: either the
`close` event with an exit code, or the `error` event (spawn failure). -/
inductive ProcOutcome
  | close (code : Int)
  | procError (msg : String)
deriving DecidableEq

/-- Environment of one run of the server `synthesize`: the piper process
outcome, its collected stderr, whether the output file exists afterwards, and
the timestamp used to name the output file. -/
structure Run where
  procOutcome : ProcOutcome
  stderr : String
  outputFileCreated : Bool
  timestamp : Nat
deriving DecidableEq

/-- src/server/tts.js lines 16-79, `synthesize`: empty or whitespace-only text
throws "No text to synthesize" (lines 17-19); otherwise `cleanTextForTTS text`
is written to piper's stdin (line 77) and the promise settles from the process
outcome (lines 56-75).  Returns the text dispatched to the synthesis backend,
if any, together with the settlement. -/
def synthesize (run : Run) (text : String) : Option String × Except String String :=
  if jsTrim text = "" then (none, .error "No text to synthesize")
  else
    let cleanedText := cleanTextForTTS text
    (some cleanedText,
      match run.procOutcome with
      | .procError m => .error ("Failed to run piper: " ++ m)
      | .close c =>
          if c ≠ 0 then
            .error ("TTS failed: " ++ (if run.stderr = "" then "Unknown error" else run.stderr))
          else if run.outputFileCreated then
            .ok ("tts_" ++ toString run.timestamp ++ ".wav")
          else .error "TTS output file not created")

end Tts

namespace GatewayTts

/-- Environment of the gateway TTS `synthesize` (src/unnamed/part_001 lines
203-231): whether the gateway request succeeds, the platform, and whether the
espeak fallback is available and succeeds. -/
structure Env where
  gatewayOk : Bool
  isDarwin : Bool
  espeakOk : Bool
deriving DecidableEq

/-- src/unnamed/part_001 lines 203-231, gateway `synthesize`: empty or
whitespace-only text returns null (no error); otherwise text longer than 500
characters is cut to 500 plus "..." and dispatched, first to the gateway TTS
endpoint, then to `say` on macOS, then to espeak, and finally null when no
backend works.  Returns the dispatched text together with the settlement
(`ok none` models resolving with null). -/
def synthesize (env : Env) (text : String) : Option String × Except String (Option String) :=
  if jsTrim text = "" then (none, .ok none)
  else
    let ttsText := if text.length > 500 then String.mk (text.toList.take 500) ++ "..." else text
    (some ttsText,
      if env.gatewayOk then .ok (some "speech.mp3")
      else if env.isDarwin then .ok (some "speech.aiff")
      else if env.espeakOk then .ok (some "speech.wav")
      else .ok none)

end GatewayTts

namespace PiperTts

/-- Environment of the piper TTS `synthesize` (src/unnamed/part_001 lines
273-339): which backends resolve, the platform, and the piper process
outcome. -/
structure Env where
  piperFound : Bool
  piperClose : Int
  isDarwin : Bool
  espeakFound : Bool
deriving DecidableEq

/-- src/unnamed/part_001 lines 293-319, piper `synthesize`: empty or
whitespace-only text returns null (no error); otherwise text longer than
`maxChars = 500` characters is cut to 500 plus "..." and dispatched to piper,
`say` or espeak; with no engine found it resolves null.  Returns the
dispatched text together with the settlement. -/
def synthesize (env : Env) (text : String) : Option String × Except String (Option String) :=
  if jsTrim text = "" then (none, .ok none)
  else
    let maxChars := 500
    let ttsText :=
      if text.length > maxChars then String.mk (text.toList.take maxChars) ++ "..." else text
    if env.piperFound then
      (some ttsText,
        if env.piperClose = 0 then .ok (some "speech.wav")
        else .error ("Piper exited " ++ toString env.piperClose))
    else if env.isDarwin then (some ttsText, .ok (some "speech.aiff"))
    else if env.espeakFound then (some ttsText, .ok (some "speech.wav"))
    else (none, .ok none)

end PiperTts

namespace Audio

/-- Settlement of one `playAudio` call together with whether the audio file's
backing storage was released (`unlinkSync` via `cleanupFile`). -/
structure PlayOut where
  settled : Except String Unit
  fileReleased : Bool

/-- src/server/audio.js lines 157-193, `playAudio`: rejects when the file does
not exist; otherwise the promise settles on the player process outcome.  Only
the `close` event with exit code 0 runs `cleanupFile` before resolving; a
non-zero exit code or a process error rejects without releasing the file. -/
def playAudio (fileExists : Bool) (outcome : Tts.ProcOutcome) : PlayOut :=
  if !fileExists then ⟨.error "Audio file not found", false⟩
  else
    match outcome with
    | .close c =>
        if c = 0 then ⟨.ok (), true⟩
        else ⟨.error ("Playback failed with code " ++ toString c), false⟩
    | .procError m => ⟨.error ("Playback error: " ++ m), false⟩

/-- A recording handle as returned by the server `startRecording`
(src/server/audio.js lines 106-110): the capture process (whether it is
present), the target wav path and the start timestamp. -/
structure RecHandle where
  hasProcess : Bool
  wavPath : String
  startTime : Nat
deriving DecidableEq

/-- How the capture process reacts to the graceful SIGINT: it closes after
`ms` milliseconds, or it ignores the signal and never closes on its own. -/
inductive StopBehavior
  | closesAfter (ms : Nat)
  | ignores
deriving DecidableEq

/-- src/server/audio.js lines 113-155, `stopRecording`: rejects only when the
handle or its process is missing; with a recording younger than 500 ms it
first waits out the remainder of 500 ms, then sends SIGINT and resolves with
the wav path either on the process `close` event or, if that has not fired
after 2000 ms, after a SIGKILL — the `resolved` flag makes the two callbacks
settle exactly once.  Returns the settlement together with the number of
milliseconds until it settles. -/
def stopRecording (recording : Option RecHandle) (now : Nat) (beh : StopBehavior) :
    Except String (String × Nat) :=
  match recording with
  | none => .error "No recording process"
  | some rec =>
      if !rec.hasProcess then .error "No recording process"
      else
        let duration := now - rec.startTime
        let padding := if duration < 500 then 500 - duration else 0
        match beh with
        | .closesAfter ms =>
            if ms < 2000 then .ok (rec.wavPath, padding + ms)
            else .ok (rec.wavPath, padding + 2000)
        | .ignores => .ok (rec.wavPath, padding + 2000)

end Audio

namespace HwAudio

/-- A recording handle of the hardware audio variant (src/unnamed/part_003
lines 20-51): the capture process and the wav path. -/
structure RecHandle where
  hasProcess : Bool
  wavPath : String
deriving DecidableEq

/-- How the capture process behaves after the graceful SIGINT of the hardware
`stopRecording`: it closes (possibly only after the 1500 ms SIGKILL), or its
`error` event fires first. -/
inductive StopEvent
  | closes
  | procError (msg : String)
deriving DecidableEq

/-- src/unnamed/part_003 lines 53-75, hardware `stopRecording`: rejects when
the handle or its process is missing; otherwise SIGINT is sent with a SIGKILL
scheduled after 1500 ms, the promise resolves with the wav path on the `close`
event — and rejects if the process `error` event fires instead. -/
def stopRecording (handle : Option RecHandle) (ev : StopEvent) : Except String String :=
  match handle with
  | none => .error "No recording"
  | some h =>
      if !h.hasProcess then .error "No recording"
      else
        match ev with
        | .closes => .ok h.wavPath
        | .procError m => .error m

/-- src/unnamed/part_003 lines 77-98, hardware `playAudio`: the `close` event
(any exit code) unlinks the wav file and resolves; the process `error` event
logs and resolves without unlinking.  This variant never rejects. -/
def playAudio (outcome : Tts.ProcOutcome) : Audio.PlayOut :=
  match outcome with
  | .close _ => ⟨.ok (), true⟩
  | .procError _ => ⟨.ok (), false⟩

end HwAudio

/-! Helper lemmas shared by the claim theorems. -/

/-- Fold invariant of `handleStreamingResponse`: the accumulated
`fullResponse` is always the concatenation of the chunks handed to
`onChunk`. -/
theorem streamStep_foldl_concat (lines : List RawLine) (acc : List String × String)
    (h : acc.2 = concatStr acc.1) :
    (lines.foldl streamStep acc).2 = concatStr (lines.foldl streamStep acc).1 := by
  induction lines generalizing acc with
  | nil => simpa using h
  | cons l rest ih =>
      refine ih (streamStep acc l) ?_
      cases l with
      | unparsable => simpa using h
      | parsed d =>
          cases hc : d.content with
          | none => simpa [streamStep, hc] using h
          | some c =>
              by_cases hce : c = ""
              · simpa [streamStep, hc, hce] using h
              · simp only [streamStep, hc, if_neg hce]
                simp [concatStr, List.foldl_append, h]

/-- Frames built from chat chunks are never error frames. -/
theorem noErrorFrames_chunkMsgs (chunks : List String) :
    noErrorFrames (chunks.map (fun c => (⟨"response_chunk", [("text", c)]⟩ : Msg))) = true := by
  simp [noErrorFrames, List.all_map, Function.comp]

/-- `addToHistory` always leaves at most `MAX_HISTORY` entries. -/
theorem addToHistory_length_le (h : List Turn) (r : Role) (c : String) :
    (addToHistory h r c).length ≤ MAX_HISTORY := by
  unfold addToHistory
  by_cases hl : (h ++ [(⟨r, c⟩ : Turn)]).length > MAX_HISTORY
  · simp only [if_pos hl, List.length_drop]
    omega
  · simp only [if_neg hl]
    omega

/-- `addToHistory` is exactly "append, then keep the last `MAX_HISTORY`". -/
theorem addToHistory_eq_drop (h : List Turn) (r : Role) (c : String) :
    addToHistory h r c
      = (h ++ [(⟨r, c⟩ : Turn)]).drop ((h ++ [(⟨r, c⟩ : Turn)]).length - MAX_HISTORY) := by
  unfold addToHistory
  by_cases hl : (h ++ [(⟨r, c⟩ : Turn)]).length > MAX_HISTORY
  · simp only [if_pos hl]
  · simp only [if_neg hl]
    rw [Nat.sub_eq_zero_of_le (Nat.le_of_not_lt hl), List.drop_zero]

/-- Keeping the last `n` of a list, appending, and keeping the last `n` again
is the same as keeping the last `n` of the whole concatenation. -/
theorem drop_sub_append (xs ys : List Turn) (n : Nat) :
    (xs.drop (xs.length - n) ++ ys).drop
        ((xs.drop (xs.length - n) ++ ys).length - n)
      = (xs ++ ys).drop ((xs ++ ys).length - n) := by
  rw [List.drop_append_eq_append_drop, List.drop_append_eq_append_drop]
  rw [List.length_append, List.length_append, List.length_drop]
  rw [List.drop_drop]
  congr 1
  · congr 1
    omega
  · congr 1
    omega

/-- Folding a turn sequence through `addToHistory` keeps exactly the last
`MAX_HISTORY` entries of the concatenation, in order. -/
theorem pushTurns_eq (ts : List Turn) :
    ∀ h : List Turn, h.length ≤ MAX_HISTORY →
      pushTurns h ts = (h ++ ts).drop ((h ++ ts).length - MAX_HISTORY) := by
  induction ts with
  | nil =>
      intro h hh
      simp only [pushTurns, List.foldl_nil, List.append_nil]
      rw [Nat.sub_eq_zero_of_le hh, List.drop_zero]
  | cons t rest ih =>
      intro h hh
      have step : pushTurns h (t :: rest) = pushTurns (addToHistory h t.role t.content) rest := rfl
      rw [step, ih (addToHistory h t.role t.content) (addToHistory_length_le h t.role t.content),
        addToHistory_eq_drop, drop_sub_append]
      simp only [List.append_assoc, List.singleton_append]

/-! Claim theorems. -/

/-- Claim C9: every server-to-client send goes through `sendMessage`, which
serializes the frame only when the connection's readyState is OPEN and
otherwise does nothing (no frame, no exception). -/
theorem send_gated_on_open (readyState : Nat) (type : String)
    (data : List (String × String)) :
    (readyState = OPEN → sendMessage readyState type data = some ⟨type, data⟩)
    ∧ (readyState ≠ OPEN → sendMessage readyState type data = none) := by
  constructor <;> intro h <;> simp [sendMessage, h]

/-- Witness for `send_gated_on_open`: a frame toward an OPEN connection is
sent, a frame toward a CLOSING connection is silently dropped. -/
theorem send_gated_on_open_witness :
    sendMessage OPEN "state" [("state", "idle")] = some ⟨"state", [("state", "idle")]⟩
    ∧ sendMessage CLOSING "state" [("state", "idle")] = none :=
  ⟨(send_gated_on_open OPEN "state" [("state", "idle")]).1 rfl,
    (send_gated_on_open CLOSING "state" [("state", "idle")]).2 (by decide)⟩

/-- Claim C2 (counterexample): in the Thinking phase the closure's
`isRecording` flag is already false, so a `start_recording` command is not
rejected: it starts a new capture, emits `recording_started` and mutates the
session state, contrary to the claim that every non-Idle state rejects it. -/
theorem start_recording_thinking_accepted_cex :
    isRecordingFlagAt .thinking = false
    ∧ handleStartRecording (.ok ()) ⟨isRecordingFlagAt .thinking, false, []⟩
      = ([⟨"recording_started", []⟩], ⟨true, true, []⟩) :=
  ⟨rfl, rfl⟩

/-- Claim C2 (amended): a `start_recording` received while the recording flag
is set is rejected with an "Already recording" error frame and leaves the
state unchanged; when the flag is clear (which includes the Transcribing,
Thinking and Speaking phases) the command is accepted and starts a capture. -/
theorem start_recording_guard (outcome : JsCall Unit) (st : ConnState) :
    (st.isRecording = true →
      handleStartRecording outcome st
        = ([⟨"error", [("message", "Already recording")]⟩], st))
    ∧ (st.isRecording = false →
      handleStartRecording (.ok ()) st
        = ([⟨"recording_started", []⟩],
            { st with isRecording := true, recordingProcess := true })) := by
  constructor <;> intro h <;> simp [handleStartRecording, h]

/-- Witness for `start_recording_guard`: with the flag set the command is
rejected and the state survives unchanged. -/
theorem start_recording_guard_witness :
    handleStartRecording (.ok ()) ⟨true, true, []⟩
      = ([⟨"error", [("message", "Already recording")]⟩], ⟨true, true, []⟩) :=
  (start_recording_guard (.ok ()) ⟨true, true, []⟩).1 rfl

/-- Claim C3 (counterexample): when `startRecording()` throws, the handler
sends a single error frame and no `state` frame at all, so this failure is an
error event that is not followed by a `state: idle` event. -/
theorem start_failure_no_idle_frame_cex :
    handleStartRecording (.thrown "spawn arecord ENOENT") ⟨false, false, []⟩
      = ([⟨"error", [("message", "Failed to start recording")]⟩], ⟨false, false, []⟩)
    ∧ ([(⟨"error", [("message", "Failed to start recording")]⟩ : Msg)].all
        (fun m => m.type != "state")) = true :=
  ⟨rfl, by decide⟩

/-- Claim C3 (amended): within the `stop_recording` pipeline the claim holds:
every run ends with the recording flag and process handle cleared, any run
that emits an error frame emits exactly one, as the second-to-last frame,
immediately followed by the final `state: idle` frame, and every adapter
failure produces such a run.  (The `start_recording` failure path, by
contrast, emits its error frame with no `state` frame at all.) -/
theorem stop_pipeline_error_discipline (env : StopEnv) (st : ConnState)
    (h : st.isRecording = true) :
    ((handleStopRecording env st).state.isRecording = false
      ∧ (handleStopRecording env st).state.recordingProcess = false)
    ∧ (∃ pre, noErrorFrames pre = true
        ∧ ((∃ e, (handleStopRecording env st).msgs
              = pre ++ [⟨"error", [("message", e)]⟩, ⟨"state", [("state", "idle")]⟩])
          ∨ (handleStopRecording env st).msgs = pre ++ [⟨"state", [("state", "idle")]⟩]))
    ∧ (adapterFailure env = true →
        ∃ pre e, noErrorFrames pre = true
          ∧ (handleStopRecording env st).msgs
            = pre ++ [⟨"error", [("message", e)]⟩, ⟨"state", [("state", "idle")]⟩]) := by
  obtain ⟨ir, rp, hist⟩ := st
  have hir : ir = true := h
  subst hir
  obtain ⟨stopR, trR, ⟨chunks, chatF⟩, synthR, playR⟩ := env
  cases stopR with
  | thrown e =>
      exact ⟨⟨rfl, rfl⟩,
        ⟨[⟨"recording_stopped", []⟩, ⟨"state", [("state", "thinking")]⟩], by decide,
          Or.inl ⟨errMessage e, rfl⟩⟩,
        fun _ => ⟨[⟨"recording_stopped", []⟩, ⟨"state", [("state", "thinking")]⟩],
          errMessage e, by decide, rfl⟩⟩
  | ok w =>
      cases trR with
      | thrown e =>
          exact ⟨⟨rfl, rfl⟩,
            ⟨[⟨"recording_stopped", []⟩, ⟨"state", [("state", "thinking")]⟩,
                ⟨"state", [("state", "transcribing")]⟩], by decide,
              Or.inl ⟨errMessage e, rfl⟩⟩,
            fun _ => ⟨[⟨"recording_stopped", []⟩, ⟨"state", [("state", "thinking")]⟩,
                ⟨"state", [("state", "transcribing")]⟩],
              errMessage e, by decide, rfl⟩⟩
      | ok t =>
          by_cases hemp : jsTrim t = ""
          · refine ⟨⟨?_, ?_⟩,
              ⟨[⟨"recording_stopped", []⟩, ⟨"state", [("state", "thinking")]⟩,
                  ⟨"state", [("state", "transcribing")]⟩], by decide,
                Or.inl ⟨"Could not understand audio", ?_⟩⟩,
              fun hf => ?_⟩
            · simp [handleStopRecording, hemp]
            · simp [handleStopRecording, hemp]
            · simp [handleStopRecording, hemp]
            · simp [adapterFailure, hemp] at hf
          · cases chatF with
            | some e =>
                refine ⟨⟨?_, ?_⟩,
                  ⟨[⟨"recording_stopped", []⟩, ⟨"state", [("state", "thinking")]⟩,
                      ⟨"state", [("state", "transcribing")]⟩,
                      ⟨"transcript", [("text", t)]⟩, ⟨"state", [("state", "thinking")]⟩]
                    ++ chunks.map (fun c => ⟨"response_chunk", [("text", c)]⟩),
                    ?_, Or.inl ⟨errMessage e, ?_⟩⟩,
                  fun _ => ⟨[⟨"recording_stopped", []⟩, ⟨"state", [("state", "thinking")]⟩,
                      ⟨"state", [("state", "transcribing")]⟩,
                      ⟨"transcript", [("text", t)]⟩, ⟨"state", [("state", "thinking")]⟩]
                    ++ chunks.map (fun c => ⟨"response_chunk", [("text", c)]⟩),
                    errMessage e, ?_, ?_⟩⟩ <;>
                  simp [handleStopRecording, hemp, noErrorFrames, List.all_append,
                    List.all_map, Function.comp, catchMsgs]
            | none =>
                cases synthR with
                | thrown e =>
                    refine ⟨⟨?_, ?_⟩,
                      ⟨[⟨"recording_stopped", []⟩, ⟨"state", [("state", "thinking")]⟩,
                          ⟨"state", [("state", "transcribing")]⟩,
                          ⟨"transcript", [("text", t)]⟩, ⟨"state", [("state", "thinking")]⟩]
                        ++ chunks.map (fun c => ⟨"response_chunk", [("text", c)]⟩)
                        ++ [⟨"response_complete", [("text", concatStr chunks)]⟩,
                            ⟨"state", [("state", "speaking")]⟩],
                        ?_, Or.inl ⟨errMessage e, ?_⟩⟩,
                      fun _ => ⟨[⟨"recording_stopped", []⟩, ⟨"state", [("state", "thinking")]⟩,
                          ⟨"state", [("state", "transcribing")]⟩,
                          ⟨"transcript", [("text", t)]⟩, ⟨"state", [("state", "thinking")]⟩]
                        ++ chunks.map (fun c => ⟨"response_chunk", [("text", c)]⟩)
                        ++ [⟨"response_complete", [("text", concatStr chunks)]⟩,
                            ⟨"state", [("state", "speaking")]⟩],
                        errMessage e, ?_, ?_⟩⟩ <;>
                      simp [handleStopRecording, hemp, noErrorFrames, List.all_append,
                        List.all_map, Function.comp, catchMsgs]
                | ok a =>
                    cases playR with
                    | thrown e =>
                        refine ⟨⟨?_, ?_⟩,
                          ⟨[⟨"recording_stopped", []⟩, ⟨"state", [("state", "thinking")]⟩,
                              ⟨"state", [("state", "transcribing")]⟩,
                              ⟨"transcript", [("text", t)]⟩, ⟨"state", [("state", "thinking")]⟩]
                            ++ chunks.map (fun c => ⟨"response_chunk", [("text", c)]⟩)
                            ++ [⟨"response_complete", [("text", concatStr chunks)]⟩,
                                ⟨"state", [("state", "speaking")]⟩],
                            ?_, Or.inl ⟨errMessage e, ?_⟩⟩,
                          fun _ => ⟨[⟨"recording_stopped", []⟩,
                              ⟨"state", [("state", "thinking")]⟩,
                              ⟨"state", [("state", "transcribing")]⟩,
                              ⟨"transcript", [("text", t)]⟩, ⟨"state", [("state", "thinking")]⟩]
                            ++ chunks.map (fun c => ⟨"response_chunk", [("text", c)]⟩)
                            ++ [⟨"response_complete", [("text", concatStr chunks)]⟩,
                                ⟨"state", [("state", "speaking")]⟩],
                            errMessage e, ?_, ?_⟩⟩ <;>
                          simp [handleStopRecording, hemp, noErrorFrames, List.all_append,
                            List.all_map, Function.comp, catchMsgs]
                    | ok u =>
                        refine ⟨⟨?_, ?_⟩,
                          ⟨[⟨"recording_stopped", []⟩, ⟨"state", [("state", "thinking")]⟩,
                              ⟨"state", [("state", "transcribing")]⟩,
                              ⟨"transcript", [("text", t)]⟩, ⟨"state", [("state", "thinking")]⟩]
                            ++ chunks.map (fun c => ⟨"response_chunk", [("text", c)]⟩)
                            ++ [⟨"response_complete", [("text", concatStr chunks)]⟩,
                                ⟨"state", [("state", "speaking")]⟩],
                            ?_, Or.inr ?_⟩,
                          fun hf => ?_⟩
                        · simp [handleStopRecording, hemp]
                        · simp [handleStopRecording, hemp]
                        · simp [noErrorFrames, List.all_append, List.all_map, Function.comp]
                        · simp [handleStopRecording, hemp]
                        · simp [adapterFailure, hemp] at hf

/-- Witness for `stop_pipeline_error_discipline`: a concrete failing run (the
transcription adapter throws) ends in one error frame followed by the idle
state frame, with the flags cleared. -/
theorem stop_pipeline_error_discipline_witness :
    ((handleStopRecording ⟨.ok "r.wav", .thrown "Transcription failed", ⟨[], none⟩,
        .ok "t.wav", .ok ()⟩ ⟨true, true, []⟩).state.isRecording = false
      ∧ (handleStopRecording ⟨.ok "r.wav", .thrown "Transcription failed", ⟨[], none⟩,
        .ok "t.wav", .ok ()⟩ ⟨true, true, []⟩).state.recordingProcess = false)
    ∧ (∃ pre, noErrorFrames pre = true
        ∧ ((∃ e, (handleStopRecording ⟨.ok "r.wav", .thrown "Transcription failed", ⟨[], none⟩,
              .ok "t.wav", .ok ()⟩ ⟨true, true, []⟩).msgs
              = pre ++ [⟨"error", [("message", e)]⟩, ⟨"state", [("state", "idle")]⟩])
          ∨ (handleStopRecording ⟨.ok "r.wav", .thrown "Transcription failed", ⟨[], none⟩,
              .ok "t.wav", .ok ()⟩ ⟨true, true, []⟩).msgs
              = pre ++ [⟨"state", [("state", "idle")]⟩]))
    ∧ (adapterFailure ⟨.ok "r.wav", .thrown "Transcription failed", ⟨[], none⟩,
          .ok "t.wav", .ok ()⟩ = true →
        ∃ pre e, noErrorFrames pre = true
          ∧ (handleStopRecording ⟨.ok "r.wav", .thrown "Transcription failed", ⟨[], none⟩,
              .ok "t.wav", .ok ()⟩ ⟨true, true, []⟩).msgs
            = pre ++ [⟨"error", [("message", e)]⟩, ⟨"state", [("state", "idle")]⟩]) :=
  stop_pipeline_error_discipline
    ⟨.ok "r.wav", .thrown "Transcription failed", ⟨[], none⟩, .ok "t.wav", .ok ()⟩
    ⟨true, true, []⟩ rfl

/-- Claim C5: an empty or whitespace-only transcription makes the pipeline
send exactly the error frame and the `state: idle` frame after the progress
frames, leaves the history untouched, and never invokes the model client. -/
theorem empty_transcript_short_circuit (env : StopEnv) (st : ConnState) (w t : String)
    (h : st.isRecording = true) (hstop : env.stopRecordingResult = .ok w)
    (htr : env.transcribeResult = .ok t) (hemp : jsTrim t = "") :
    (handleStopRecording env st).msgs
      = [⟨"recording_stopped", []⟩, ⟨"state", [("state", "thinking")]⟩,
         ⟨"state", [("state", "transcribing")]⟩,
         ⟨"error", [("message", "Could not understand audio")]⟩,
         ⟨"state", [("state", "idle")]⟩]
    ∧ (handleStopRecording env st).chatInvoked = false
    ∧ (handleStopRecording env st).state.history = st.history := by
  obtain ⟨ir, rp, hist⟩ := st
  have hir : ir = true := h
  subst hir
  obtain ⟨stopR, trR, chatR, synthR, playR⟩ := env
  simp only at hstop htr
  subst hstop
  subst htr
  refine ⟨?_, ?_, ?_⟩ <;> simp [handleStopRecording, hemp]

/-- Witness for `empty_transcript_short_circuit`: a whitespace-only
transcript at a concrete pipeline run. -/
theorem empty_transcript_short_circuit_witness :
    (handleStopRecording ⟨.ok "r.wav", .ok "   ", ⟨[], none⟩, .ok "t.wav", .ok ()⟩
        ⟨true, true, [⟨.user, "hi"⟩]⟩).msgs
      = [⟨"recording_stopped", []⟩, ⟨"state", [("state", "thinking")]⟩,
         ⟨"state", [("state", "transcribing")]⟩,
         ⟨"error", [("message", "Could not understand audio")]⟩,
         ⟨"state", [("state", "idle")]⟩]
    ∧ (handleStopRecording ⟨.ok "r.wav", .ok "   ", ⟨[], none⟩, .ok "t.wav", .ok ()⟩
        ⟨true, true, [⟨.user, "hi"⟩]⟩).chatInvoked = false
    ∧ (handleStopRecording ⟨.ok "r.wav", .ok "   ", ⟨[], none⟩, .ok "t.wav", .ok ()⟩
        ⟨true, true, [⟨.user, "hi"⟩]⟩).state.history
      = (⟨true, true, [⟨.user, "hi"⟩]⟩ : ConnState).history :=
  empty_transcript_short_circuit ⟨.ok "r.wav", .ok "   ", ⟨[], none⟩, .ok "t.wav", .ok ()⟩
    ⟨true, true, [⟨.user, "hi"⟩]⟩ "r.wav" "   " rfl rfl rfl (by decide)

/-- Claim C1 (counterexample): in the exact scenario of the claim (increments
"Hel" then "lo", then completion) the pipeline emits the two `response_chunk`
frames in order and finishes the response with a `response_complete` frame
carrying "Hello" — it emits no `response_done` frame at all, so the claim's
final event name is wrong (the repository's own web client listens for
`response_done`). -/
theorem response_done_missing_cex :
    (handleStopRecording ⟨.ok "rec.wav", .ok "hi there", ⟨["Hel", "lo"], none⟩,
        .ok "tts.wav", .ok ()⟩ ⟨true, true, []⟩).msgs
      = [⟨"recording_stopped", []⟩, ⟨"state", [("state", "thinking")]⟩,
         ⟨"state", [("state", "transcribing")]⟩, ⟨"transcript", [("text", "hi there")]⟩,
         ⟨"state", [("state", "thinking")]⟩, ⟨"response_chunk", [("text", "Hel")]⟩,
         ⟨"response_chunk", [("text", "lo")]⟩, ⟨"response_complete", [("text", "Hello")]⟩,
         ⟨"state", [("state", "speaking")]⟩, ⟨"state", [("state", "idle")]⟩]
    ∧ ((handleStopRecording ⟨.ok "rec.wav", .ok "hi there", ⟨["Hel", "lo"], none⟩,
        .ok "tts.wav", .ok ()⟩ ⟨true, true, []⟩).msgs.all
          (fun m => m.type != "response_done")) = true := by
  exact ⟨by decide, by decide⟩

/-- Claim C1 (amended): for a model stream whose parsed lines deliver the
increments of `handleStreamingResponse`, the pipeline emits one
`response_chunk` frame per increment in arrival order, followed by one final
`response_complete` (not `response_done`) frame whose text is the
concatenation of all increments, which is also the value
`handleStreamingResponse` resolves with. -/
theorem streaming_chunks_order_and_concat (st : ConnState) (wav audio transcript : String)
    (lines : List RawLine) (h : st.isRecording = true) (hne : ¬jsTrim transcript = "") :
    (handleStreamingResponse lines).2 = concatStr (handleStreamingResponse lines).1
    ∧ (handleStopRecording
        ⟨.ok wav, .ok transcript, ⟨(handleStreamingResponse lines).1, none⟩, .ok audio, .ok ()⟩
        st).msgs
      = [⟨"recording_stopped", []⟩, ⟨"state", [("state", "thinking")]⟩,
         ⟨"state", [("state", "transcribing")]⟩, ⟨"transcript", [("text", transcript)]⟩,
         ⟨"state", [("state", "thinking")]⟩]
        ++ (handleStreamingResponse lines).1.map
            (fun c => ⟨"response_chunk", [("text", c)]⟩)
        ++ [⟨"response_complete", [("text", concatStr (handleStreamingResponse lines).1)]⟩,
            ⟨"state", [("state", "speaking")]⟩, ⟨"state", [("state", "idle")]⟩] := by
  obtain ⟨ir, rp, hist⟩ := st
  have hir : ir = true := h
  subst hir
  refine ⟨streamStep_foldl_concat lines ([], "") rfl, ?_⟩
  simp [handleStopRecording, hne]

/-- Witness for `streaming_chunks_order_and_concat`: the "Hel"/"lo" stream at
a concrete run. -/
theorem streaming_chunks_order_and_concat_witness :
    (handleStreamingResponse [.parsed ⟨some "Hel", false⟩, .parsed ⟨some "lo", false⟩,
        .parsed ⟨none, true⟩]).2
      = concatStr (handleStreamingResponse [.parsed ⟨some "Hel", false⟩,
          .parsed ⟨some "lo", false⟩, .parsed ⟨none, true⟩]).1
    ∧ (handleStopRecording
        ⟨.ok "rec.wav", .ok "hi there",
          ⟨(handleStreamingResponse [.parsed ⟨some "Hel", false⟩, .parsed ⟨some "lo", false⟩,
              .parsed ⟨none, true⟩]).1, none⟩, .ok "tts.wav", .ok ()⟩
        ⟨true, true, []⟩).msgs
      = [⟨"recording_stopped", []⟩, ⟨"state", [("state", "thinking")]⟩,
         ⟨"state", [("state", "transcribing")]⟩, ⟨"transcript", [("text", "hi there")]⟩,
         ⟨"state", [("state", "thinking")]⟩]
        ++ (handleStreamingResponse [.parsed ⟨some "Hel", false⟩, .parsed ⟨some "lo", false⟩,
            .parsed ⟨none, true⟩]).1.map (fun c => ⟨"response_chunk", [("text", c)]⟩)
        ++ [⟨"response_complete",
              [("text", concatStr (handleStreamingResponse [.parsed ⟨some "Hel", false⟩,
                  .parsed ⟨some "lo", false⟩, .parsed ⟨none, true⟩]).1)]⟩,
            ⟨"state", [("state", "speaking")]⟩, ⟨"state", [("state", "idle")]⟩] :=
  streaming_chunks_order_and_concat ⟨true, true, []⟩ "rec.wav" "tts.wav" "hi there"
    [.parsed ⟨some "Hel", false⟩, .parsed ⟨some "lo", false⟩, .parsed ⟨none, true⟩]
    rfl (by decide)

/-- Claim C4: a history built by pushing any turn sequence through
`addToHistory` never exceeds `MAX_HISTORY` entries and is exactly the last
`MAX_HISTORY` entries of the pushed sequence, oldest first (so truncation
always drops the oldest turns and preserves chronological order). -/
theorem history_bound_truncation (h ts : List Turn) (hh : h.length ≤ MAX_HISTORY) :
    (pushTurns h ts).length ≤ MAX_HISTORY
    ∧ pushTurns h ts = (h ++ ts).drop ((h ++ ts).length - MAX_HISTORY) := by
  refine ⟨?_, pushTurns_eq ts h hh⟩
  rw [pushTurns_eq ts h hh, List.length_drop]
  omega

/-- Witness for `history_bound_truncation`: pushing 12 turns into an empty
history retains exactly the most recent 10, oldest first. -/
theorem history_bound_truncation_witness :
    (pushTurns [] turns12).length ≤ MAX_HISTORY
    ∧ pushTurns [] turns12
      = (([] : List Turn) ++ turns12).drop
          ((([] : List Turn) ++ turns12).length - MAX_HISTORY) :=
  history_bound_truncation [] turns12 (by decide)

/-- Length of a packed character list. -/
theorem length_mk_eq (l : List Char) : (String.mk l).length = l.length := rfl

/-- The 500-plus-ellipsis truncation used by the gateway and piper TTS
variants never dispatches more than 503 characters. -/
theorem ttsTruncate_length_le (t : String) :
    (if t.length > 500 then String.mk (t.toList.take 500) ++ "..." else t).length ≤ 503 := by
  by_cases hl : t.length > 500
  · simp only [if_pos hl, String.length_append, length_mk_eq, List.length_take]
    have h3 : ("..." : String).length = 3 := rfl
    omega
  · simp only [if_neg hl]
    omega

/-- Claim C6 (counterexample): the server `synthesize` (src/server/tts.js,
the implementation index.js imports) throws "No text to synthesize" on empty
and on whitespace-only input instead of returning null. -/
theorem tts_empty_input_throws_cex :
    Tts.synthesize ⟨.close 0, "", true, 0⟩ "" = (none, .error "No text to synthesize")
    ∧ Tts.synthesize ⟨.close 0, "", true, 0⟩ "   " = (none, .error "No text to synthesize") :=
  ⟨rfl, rfl⟩

/-- Claim C6 (amended): on empty or whitespace-only input the gateway and
piper TTS variants resolve null without error, while the server tts.js variant
throws "No text to synthesize"; none of them dispatches anything to a
backend. -/
theorem synthesize_empty_input_behavior (t : String) (ht : jsTrim t = "")
    (genv : GatewayTts.Env) (penv : PiperTts.Env) (run : Tts.Run) :
    GatewayTts.synthesize genv t = (none, .ok none)
    ∧ PiperTts.synthesize penv t = (none, .ok none)
    ∧ Tts.synthesize run t = (none, .error "No text to synthesize") := by
  refine ⟨?_, ?_, ?_⟩ <;>
    simp [GatewayTts.synthesize, PiperTts.synthesize, Tts.synthesize, ht]

/-- Witness for `synthesize_empty_input_behavior` at a whitespace-only
input. -/
theorem synthesize_empty_input_behavior_witness :
    GatewayTts.synthesize ⟨true, false, false⟩ " " = (none, .ok none)
    ∧ PiperTts.synthesize ⟨true, 0, false, false⟩ " " = (none, .ok none)
    ∧ Tts.synthesize ⟨.close 0, "", true, 0⟩ " " = (none, .error "No text to synthesize") :=
  synthesize_empty_input_behavior " " (by decide) ⟨true, false, false⟩
    ⟨true, 0, false, false⟩ ⟨.close 0, "", true, 0⟩

set_option maxRecDepth 10000 in
/-- Claim C7 (counterexample): the server `synthesize` dispatches a 700
character input unshortened (its `cleanTextForTTS` cap is 2000 characters,
not roughly 500), so the dispatched length exceeds any ~500-character bound. -/
theorem tts_cap_exceeds_500_cex :
    (Tts.synthesize ⟨.close 0, "", true, 0⟩ (String.mk (List.replicate 700 'a'))).1
      = some (String.mk (List.replicate 700 'a'))
    ∧ (String.mk (List.replicate 700 'a')).length = 700 :=
  ⟨by decide, by decide⟩

/-- Claim C7 (amended): the gateway and piper variants cap the dispatched text
at 500 characters plus a three-character ellipsis (never more than 503), while
the server tts.js variant caps the cleaned text at 2000 characters; no variant
dispatches beyond its own cap. -/
theorem synthesize_truncation_bounds (t : String) (run : Tts.Run)
    (genv : GatewayTts.Env) (penv : PiperTts.Env) :
    (∀ d, (Tts.synthesize run t).1 = some d → d.length ≤ 2000)
    ∧ (∀ d, (GatewayTts.synthesize genv t).1 = some d → d.length ≤ 503)
    ∧ (∀ d, (PiperTts.synthesize penv t).1 = some d → d.length ≤ 503) := by
  by_cases ht : jsTrim t = ""
  · refine ⟨?_, ?_, ?_⟩ <;> intro d hd <;>
      simp [Tts.synthesize, GatewayTts.synthesize, PiperTts.synthesize, ht] at hd
  · refine ⟨?_, ?_, ?_⟩ <;> intro d hd
    · simp only [Tts.synthesize, if_neg ht] at hd
      have hd' : d = Tts.cleanTextForTTS t := by
        simpa using hd.symm
      subst hd'
      simp only [Tts.cleanTextForTTS, length_mk_eq, List.length_take]
      omega
    · simp only [GatewayTts.synthesize, if_neg ht] at hd
      have hd' : d = if t.length > 500 then String.mk (t.toList.take 500) ++ "..." else t := by
        simpa using hd.symm
      subst hd'
      exact ttsTruncate_length_le t
    · simp only [PiperTts.synthesize, if_neg ht] at hd
      by_cases hp : penv.piperFound
      · simp only [hp, if_pos, if_true] at hd
        have hd' : d = if t.length > 500 then String.mk (t.toList.take 500) ++ "..." else t := by
          simpa using hd.symm
        subst hd'
        exact ttsTruncate_length_le t
      · by_cases hdw : penv.isDarwin
        · simp only [hp, hdw, if_false, if_true, Bool.false_eq_true] at hd
          have hd' : d = if t.length > 500 then String.mk (t.toList.take 500) ++ "..." else t := by
            simpa using hd.symm
          subst hd'
          exact ttsTruncate_length_le t
        · by_cases he : penv.espeakFound
          · simp only [hp, hdw, he, if_false, if_true, Bool.false_eq_true] at hd
            have hd' : d = if t.length > 500 then String.mk (t.toList.take 500) ++ "..." else t := by
              simpa using hd.symm
            subst hd'
            exact ttsTruncate_length_le t
          · simp [hp, hdw, he] at hd

/-- Witness for `synthesize_truncation_bounds` at a short input: the
dispatched texts stay within the caps. -/
theorem synthesize_truncation_bounds_witness :
    ("hello" : String).length ≤ 2000 ∧ ("hello" : String).length ≤ 503 :=
  ⟨(synthesize_truncation_bounds "hello" ⟨.close 0, "", true, 0⟩ ⟨true, false, false⟩
      ⟨true, 0, false, false⟩).1 "hello" (by decide),
    (synthesize_truncation_bounds "hello" ⟨.close 0, "", true, 0⟩ ⟨true, false, false⟩
      ⟨true, 0, false, false⟩).2.1 "hello" (by decide)⟩

/-- Claim C8 (counterexample): a playback process that exits with code 1 makes
the server `playAudio` reject without running `cleanupFile`, so the buffer's
backing file is not released on this failure. -/
theorem play_failure_leaves_file_cex :
    Audio.playAudio true (.close 1)
      = { settled := .error "Playback failed with code 1", fileReleased := false } := rfl

/-- Claim C8 (amended): the server `playAudio` releases the backing file
exactly when playback succeeds (exit code 0) and settles successfully exactly
then; the hardware variant releases the file on any process close regardless
of exit code, but not when the process fails to spawn (where it still
resolves). -/
theorem play_release_policy (outcome : Tts.ProcOutcome) :
    ((Audio.playAudio true outcome).fileReleased = true ↔ outcome = .close 0)
    ∧ ((Audio.playAudio true outcome).settled = .ok () ↔ outcome = .close 0)
    ∧ (∀ c, HwAudio.playAudio (.close c) = ⟨.ok (), true⟩)
    ∧ (∀ m, HwAudio.playAudio (.procError m) = ⟨.ok (), false⟩) := by
  refine ⟨?_, ?_, fun c => rfl, fun m => rfl⟩ <;>
    cases outcome with
    | close c =>
        by_cases hc : c = 0 <;>
          simp [Audio.playAudio, hc]
    | procError m => simp [Audio.playAudio]

/-- Witness for `play_release_policy`: a successful playback releases the
file. -/
theorem play_release_policy_witness :
    (Audio.playAudio true (.close 0)).fileReleased = true :=
  (play_release_policy (.close 0)).1.mpr rfl

/-- Claim C10 (counterexample): the hardware `stopRecording`
(src/unnamed/part_003) registers the process `error` event as a rejection
path, so a valid live handle can reject, contrary to "never rejects". -/
theorem hw_stop_recording_rejects_cex :
    HwAudio.stopRecording (some ⟨true, "recording.wav"⟩) (.procError "kill EPERM")
      = .error "kill EPERM" := rfl

/-- Claim C10 (amended): the server `stopRecording` (src/server/audio.js, the
implementation index.js imports) always resolves with the handle's wav path
within the 500 ms short-recording padding plus the 2000 ms SIGKILL grace
period (at most 2500 ms), for every process behavior including one that
ignores the graceful stop, and never rejects on a valid handle; the hardware
variant also resolves with the wav path whenever its process closes (its
grace period is 1500 ms, with no padding). -/
theorem stop_recording_resolves (rec : Audio.RecHandle) (now : Nat)
    (beh : Audio.StopBehavior) (hp : rec.hasProcess = true)
    (hw : HwAudio.RecHandle) (hhw : hw.hasProcess = true) :
    (∃ ms, Audio.stopRecording (some rec) now beh = .ok (rec.wavPath, ms) ∧ ms ≤ 2500)
    ∧ HwAudio.stopRecording (some hw) .closes = .ok hw.wavPath := by
  constructor
  · obtain ⟨hpv, wav, t0⟩ := rec
    have hpv' : hpv = true := hp
    subst hpv'
    cases beh with
    | closesAfter ms =>
        by_cases h2 : ms < 2000
        · refine ⟨(if now - t0 < 500 then 500 - (now - t0) else 0) + ms, ?_, ?_⟩
          · simp [Audio.stopRecording, h2]
          · split <;> omega
        · refine ⟨(if now - t0 < 500 then 500 - (now - t0) else 0) + 2000, ?_, ?_⟩
          · simp [Audio.stopRecording, h2]
          · split <;> omega
    | ignores =>
        refine ⟨(if now - t0 < 500 then 500 - (now - t0) else 0) + 2000, ?_, ?_⟩
        · simp [Audio.stopRecording]
        · split <;> omega
  · obtain ⟨hwv, wav⟩ := hw
    have hwv' : hwv = true := hhw
    subst hwv'
    rfl

/-- Witness for `stop_recording_resolves`: a concrete 600 ms old recording
whose process ignores SIGINT still resolves within the bound. -/
theorem stop_recording_resolves_witness :
    (∃ ms, Audio.stopRecording (some ⟨true, "recording.wav", 0⟩) 600 .ignores
        = .ok ("recording.wav", ms) ∧ ms ≤ 2500)
    ∧ HwAudio.stopRecording (some ⟨true, "recording.wav"⟩) .closes = .ok "recording.wav" :=
  stop_recording_resolves ⟨true, "recording.wav", 0⟩ 600 .ignores rfl
    ⟨true, "recording.wav"⟩ rfl

end OpenClawPi
